import Mathlib

/-!
Verification of the tistory scraping / AI-rewriting pipeline (`q.py`).

This file gives a shallow embedding of the parts of `q.py` that the
specification's testable properties talk about:

* the SQLite de-duplication ledger (`init_processed_db`,
  `is_article_processed`, `mark_article_processed`),
* the article fingerprint (`get_article_hash`, an MD5 of title ++ url
  truncated to 8 hex characters),
* the file-system fallback duplicate check (`check_existing_articles`),
* the retry-bounded AI calls (`rewrite_title_with_ai`, `rewrite_with_ai`,
  `generate_ai_tags`, `generate_contextual_alt_text`),
* the categorisation heuristic (`categorize_article`),
* the sitemap `<loc>` entry-URL extraction of `main`,
* the per-URL processing loop and end-of-run manifest writing of `main`.

External effects (HTTP, the OpenAI API, file IO) are modelled as explicit
oracle functions / state passing; SQLite tables are lists of rows; machine
integers are `Nat` with explicit `% 2^32` where overflow matters.
-/

namespace Q

/-! ### The SQLite ledger (`processed_articles.db`)

The table is
`processed_articles(id INTEGER PRIMARY KEY AUTOINCREMENT, url TEXT UNIQUE,
title TEXT, hash TEXT, processed_date ...)`.
A database is modelled as the list of live rows (in rowid order) together
with the next AUTOINCREMENT id. -/

structure Row where
  id : Nat
  url : String
  title : String
  hash : String
deriving DecidableEq, Repr

structure DB where
  rows : List Row
  nextId : Nat
deriving DecidableEq, Repr

/-- `init_processed_db`: `CREATE TABLE IF NOT EXISTS` — creates an empty
table when the database file does not exist yet, otherwise leaves the
existing table untouched. -/
def init_processed_db : Option DB → DB
  | none => ⟨[], 1⟩
  | some db => db

/-- `is_article_processed(url, title, article_hash)`: first
`SELECT COUNT(*) ... WHERE url = ?`; if positive, return `True`;
otherwise return whether `SELECT COUNT(*) ... WHERE hash = ?` is positive.
Only `SELECT`s run, so the database is returned unchanged. -/
def is_article_processed (db : DB) (url : String) (_title : String)
    (article_hash : String) : Bool × DB :=
  let url_count := (db.rows.filter (fun r => r.url == url)).length
  if url_count > 0 then
    (true, db)
  else
    let hash_count := (db.rows.filter (fun r => r.hash == article_hash)).length
    (hash_count > 0, db)

/-- `mark_article_processed(url, title, article_hash)`:
`INSERT OR REPLACE INTO processed_articles (url, title, hash) VALUES (?,?,?)`.
SQLite's `REPLACE` deletes any row conflicting on the `UNIQUE url` column
and inserts the new row with a fresh AUTOINCREMENT id. -/
def mark_article_processed (db : DB) (url title article_hash : String) : DB :=
  { rows := db.rows.filter (fun r => r.url != url) ++
      [⟨db.nextId, url, title, article_hash⟩]
    nextId := db.nextId + 1 }

/-- Number of live rows recording a given URL. -/
def countUrl (db : DB) (u : String) : Nat :=
  (db.rows.filter (fun r => r.url == u)).length

/-- Whether some live row records the given URL. -/
def urlPresent (db : DB) (u : String) : Bool :=
  db.rows.any (fun r => r.url == u)

/-- A sequence of `mark_article_processed` calls applied in order. -/
def applyMarks (db : DB) (ms : List (String × String × String)) : DB :=
  ms.foldl (fun d m => mark_article_processed d m.1 m.2.1 m.2.2) db

/-! ### MD5 and `get_article_hash`

`get_article_hash(title, url)` is
`hashlib.md5(f"{title}{url}".encode()).hexdigest()[:8]`.
MD5 is implemented below over byte lists with `Nat` arithmetic mod `2^32`. -/

/-- 32-bit truncation. -/
def w32 (x : Nat) : Nat := x % 4294967296

/-- 32-bit bitwise complement. -/
def not32 (x : Nat) : Nat := 4294967295 - w32 x

/-- 32-bit left rotation. -/
def rotl32 (x n : Nat) : Nat :=
  w32 ((x <<< n) ||| (w32 x >>> (32 - n)))

/-- The 64 MD5 sine-derived constants `K`. -/
def md5K : List Nat :=
  [0xd76aa478, 0xe8c7b756, 0x242070db, 0xc1bdceee,
   0xf57c0faf, 0x4787c62a, 0xa8304613, 0xfd469501,
   0x698098d8, 0x8b44f7af, 0xffff5bb1, 0x895cd7be,
   0x6b901122, 0xfd987193, 0xa679438e, 0x49b40821,
   0xf61e2562, 0xc040b340, 0x265e5a51, 0xe9b6c7aa,
   0xd62f105d, 0x02441453, 0xd8a1e681, 0xe7d3fbc8,
   0x21e1cde6, 0xc33707d6, 0xf4d50d87, 0x455a14ed,
   0xa9e3e905, 0xfcefa3f8, 0x676f02d9, 0x8d2a4c8a,
   0xfffa3942, 0x8771f681, 0x6d9d6122, 0xfde5380c,
   0xa4beea44, 0x4bdecfa9, 0xf6bb4b60, 0xbebfbc70,
   0x289b7ec6, 0xeaa127fa, 0xd4ef3085, 0x04881d05,
   0xd9d4d039, 0xe6db99e5, 0x1fa27cf8, 0xc4ac5665,
   0xf4292244, 0x432aff97, 0xab9423a7, 0xfc93a039,
   0x655b59c3, 0x8f0ccc92, 0xffeff47d, 0x85845dd1,
   0x6fa87e4f, 0xfe2ce6e0, 0xa3014314, 0x4e0811a1,
   0xf7537e82, 0xbd3af235, 0x2ad7d2bb, 0xeb86d391]

/-- The 64 MD5 per-round shift amounts `s`. -/
def md5S : List Nat :=
  [7, 12, 17, 22, 7, 12, 17, 22, 7, 12, 17, 22, 7, 12, 17, 22,
   5,  9, 14, 20, 5,  9, 14, 20, 5,  9, 14, 20, 5,  9, 14, 20,
   4, 11, 16, 23, 4, 11, 16, 23, 4, 11, 16, 23, 4, 11, 16, 23,
   6, 10, 15, 21, 6, 10, 15, 21, 6, 10, 15, 21, 6, 10, 15, 21]

/-- `n` little-endian bytes of `x`. -/
def leBytes : Nat → Nat → List Nat
  | 0, _ => []
  | n + 1, x => (x % 256) :: leBytes n (x / 256)

/-- MD5 padding: append `0x80`, zero bytes to 56 mod 64, then the 64-bit
little-endian bit length of the original message. -/
def md5Pad (msg : List Nat) : List Nat :=
  let len := msg.length
  let padZeros := (119 - len % 64) % 64
  msg ++ [0x80] ++ List.replicate padZeros 0 ++ leBytes 8 (8 * len)

/-- Split a byte list into 64-byte chunks. -/
def toChunks : List Nat → List (List Nat)
  | [] => []
  | a :: t => (a :: t).take 64 :: toChunks (t.drop 63)
  termination_by l => l.length
  decreasing_by
    simp [List.length_drop]
    omega

/-- The 16 little-endian 32-bit message words of one 64-byte chunk. -/
def chunkWords (chunk : List Nat) : Nat → Nat := fun g =>
  let b := fun i => chunk.getD (4 * g + i) 0
  b 0 + 256 * b 1 + 65536 * b 2 + 16777216 * b 3

/-- One MD5 round: mixing function, message index and rotation for round `i`. -/
def md5Round (m : Nat → Nat) (st : Nat × Nat × Nat × Nat) (i : Nat) :
    Nat × Nat × Nat × Nat :=
  let (a, b, c, d) := st
  let (f, g) :=
    if i < 16 then ((b &&& c) ||| (not32 b &&& d), i)
    else if i < 32 then ((d &&& b) ||| (not32 d &&& c), (5 * i + 1) % 16)
    else if i < 48 then (b ^^^ c ^^^ d, (3 * i + 5) % 16)
    else (c ^^^ (b ||| not32 d), (7 * i) % 16)
  let f' := w32 (f + a + md5K.getD i 0 + m g)
  (d, w32 (b + rotl32 f' (md5S.getD i 0)), b, c)

/-- Process one 64-byte chunk, updating the four state words. -/
def md5Chunk (st : Nat × Nat × Nat × Nat) (chunk : List Nat) :
    Nat × Nat × Nat × Nat :=
  let m := chunkWords chunk
  let (a, b, c, d) := (List.range 64).foldl (md5Round m) st
  (w32 (st.1 + a), w32 (st.2.1 + b), w32 (st.2.2.1 + c), w32 (st.2.2.2 + d))

/-- Lowercase hex digit. -/
def hexDigit (n : Nat) : Char :=
  "0123456789abcdef".toList.getD n '0'

/-- Two lowercase hex characters of one byte. -/
def byteHex (b : Nat) : List Char :=
  [hexDigit (b / 16 % 16), hexDigit (b % 16)]

/-- `hashlib.md5(bytes).hexdigest()`: the 32-character lowercase hex digest. -/
def md5Hex (msg : List Nat) : String :=
  let init : Nat × Nat × Nat × Nat :=
    (0x67452301, 0xefcdab89, 0x98badcfe, 0x10325476)
  let (a, b, c, d) := (toChunks (md5Pad msg)).foldl md5Chunk init
  let out := leBytes 4 a ++ leBytes 4 b ++ leBytes 4 c ++ leBytes 4 d
  String.mk (out.foldr (fun by8 acc => byteHex by8 ++ acc) [])

/-- UTF-8 bytes of a string, as `Nat`s. -/
def strBytes (s : String) : List Nat :=
  s.toUTF8.toList.map (fun b => b.toNat)

/-- `get_article_hash(title, url)`:
`hashlib.md5(f"{title}{url}".encode()).hexdigest()[:8]`. -/
def get_article_hash (title url : String) : String :=
  (md5Hex (strBytes (title ++ url))).take 8

/-! ### String utilities shared by several functions -/

/-- Python's `needle in haystack` substring test, over character lists.
The empty needle is contained in everything. -/
def containsSubList (hay needle : List Char) : Bool :=
  if needle.isPrefixOf hay then true
  else match hay with
    | [] => false
    | _ :: t => containsSubList t needle

/-- Python's `needle in haystack` substring test on strings. -/
def containsSub (hay needle : String) : Bool :=
  containsSubList hay.toList needle.toList

/-- Python's `str.endswith(suffix)`. -/
def pyEndsWith (s suffix : String) : Bool :=
  suffix.toList.reverse.isPrefixOf s.toList.reverse

/-- A word character for Python's `\w` (modelled on the ASCII range):
a letter, a digit, or an underscore. -/
def isWordChar (c : Char) : Bool :=
  c.isAlphanum || c == '_'

/-- Python's `str.lower()`, character-wise. -/
def pyLower (s : String) : String :=
  String.mk (s.toList.map Char.toLower)

/-- Python's `str.strip()`: drop leading and trailing whitespace. -/
def pyStrip (s : String) : String :=
  String.mk (((s.toList.dropWhile Char.isWhitespace).reverse.dropWhile
    Char.isWhitespace).reverse)

/-- Worker for `pySplit`: scan the characters, accumulating the current
token (in reverse) and emitting it at every whitespace run boundary. -/
def pySplitAux (cur : List Char) : List Char → List String
  | [] => if cur = [] then [] else [String.mk cur.reverse]
  | c :: t =>
    if c.isWhitespace then
      if cur = [] then pySplitAux [] t
      else String.mk cur.reverse :: pySplitAux [] t
    else pySplitAux (c :: cur) t

/-- Python's no-argument `str.split()`: maximal whitespace-separated
tokens, with no empty tokens. -/
def pySplit (s : String) : List String :=
  pySplitAux [] s.toList

/-- `re.sub(r'[^\w\s]', '', title.lower()).strip()` — the title
normalisation used by `check_existing_articles`. -/
def normalizeTitle (title : String) : String :=
  pyStrip (String.mk ((pyLower title).toList.filter
    (fun c => isWordChar c || c.isWhitespace)))

/-- The set of normalised-title tokens (`set(normalized.split())`). -/
def titleTokens (title : String) : Finset String :=
  (pySplit (normalizeTitle title)).toFinset

/-- Token Jaccard similarity
`len(A & B) / len(A | B)` as a rational number. -/
def jaccard (a b : Finset String) : ℚ :=
  ((a ∩ b).card : ℚ) / ((a ∪ b).card : ℚ)

/-! ### The file-system fallback duplicate check (`check_existing_articles`)

The output directory is modelled as `Option (List (String × String))`:
`none` when `os.path.exists(output_dir)` is false, otherwise the
`(filename, file contents)` pairs that `os.walk` yields (files that raise
on read are simply absent, matching the `except Exception: continue`). -/

/-- Try to match `re.search(r'title: "([^"]+)"', content)` at the head of
`cs`: the literal `title: "`, then a non-empty maximal run of non-quote
characters, then a closing `"`. -/
def titleMatchAt (cs : List Char) : Option (List Char) :=
  let pat := "title: \"".toList
  if pat.isPrefixOf cs then
    let rest := cs.drop pat.length
    let cap := rest.takeWhile (fun c => c ≠ '"')
    if cap = [] then none
    else if (rest.drop cap.length) ≠ [] then some cap else none
  else none

/-- Leftmost match of `re.search(r'title: "([^"]+)"', content)`, returning
the captured group. -/
def searchTitleCapture : List Char → Option (List Char)
  | [] => none
  | c :: t =>
    match titleMatchAt (c :: t) with
    | some cap => some cap
    | none => searchTitleCapture t

/-- The per-file body of `check_existing_articles`'s walk loop: the
`source_url` marker check, the `hash` marker check, and the normalised
title Jaccard-similarity check, in order. -/
def fileIsDuplicate (article_hash title url : String)
    (content : String) : Bool :=
  if containsSub content ("source_url: \"" ++ url ++ "\"") then true
  else if containsSub content ("hash: " ++ article_hash) then true
  else
    match searchTitleCapture content.toList with
    | none => false
    | some cap =>
      let normalized_title := normalizeTitle title
      let existing_normalized := normalizeTitle (String.mk cap)
      if normalized_title ≠ "" ∧ existing_normalized ≠ "" then
        let title_words := (pySplit normalized_title).toFinset
        let existing_words := (pySplit existing_normalized).toFinset
        if title_words ≠ ∅ ∧ existing_words ≠ ∅ then
          -- `len(A & B) / len(A | B) > 0.95`, in exact cross-multiplied form
          decide (95 * (title_words ∪ existing_words).card <
            100 * (title_words ∩ existing_words).card)
        else false
      else false

/-- `check_existing_articles(output_dir, article_hash, title, url)`:
returns `False` when the output directory does not exist; otherwise walks
every `.md` file and reports a duplicate on a URL marker hit, a hash
marker hit, or a `> 0.95` title-token Jaccard similarity. -/
def check_existing_articles (output_dir : Option (List (String × String)))
    (article_hash title url : String) : Bool :=
  match output_dir with
  | none => false
  | some files =>
    files.any (fun f =>
      pyEndsWith f.1 ".md" && fileIsDuplicate article_hash title url f.2)

/-! ### The categorisation heuristic (`categorize_article`) -/

/-- The fixed automotive keyword list (`car_keywords`). -/
def car_keywords : List String :=
  ["car", "auto", "vehicle", "자동차", "차량", "승용차", "트럭", "버스",
   "현대", "기아", "삼성", "테슬라", "tesla", "hyundai", "kia",
   "전기차", "ev", "electric", "수소차", "hydrogen",
   "엔진", "모터", "배터리", "충전", "주행", "운전",
   "폴드", "fold", "갤럭시", "galaxy", "스마트폰", "smartphone"]

/-- The fixed economy keyword list (`economy_keywords`). -/
def economy_keywords : List String :=
  ["economy", "economic", "경제", "금융", "투자", "주식", "코스피", "증시",
   "달러", "원화", "환율", "금리", "인플레이션", "물가",
   "기업", "회사", "매출", "이익", "손실", "실적",
   "정책", "정부", "은행", "중앙은행"]

/-- The `tech_keywords` list is also defined by `categorize_article` but
never used in its scoring; it is reproduced here for fidelity. -/
def tech_keywords : List String :=
  ["tech", "technology", "it", "기술", "소프트웨어", "하드웨어",
   "ai", "인공지능", "머신러닝", "딥러닝",
   "앱", "app", "플랫폼", "platform", "서비스",
   "구글", "google", "애플", "apple", "마이크로소프트", "microsoft"]

/-- One keyword's hit test in `categorize_article`:
`keyword in title_lower or keyword in content_lower or keyword in all_tags`.
The first two are substring tests; the third is list membership — the
keyword must equal one of the lowercased tags exactly. -/
def keywordHits (keyword title_lower content_lower : String)
    (all_tags : List String) : Bool :=
  containsSub title_lower keyword || containsSub content_lower keyword ||
    all_tags.contains keyword

/-- A keyword list's score: `sum(1 for keyword in ... if ...)`. -/
def keywordScore (keywords : List String) (title content : String)
    (tags : List String) : Nat :=
  let title_lower := pyLower title
  let content_lower := pyLower content
  let all_tags := tags.map pyLower
  (keywords.filter
    (fun k => keywordHits k title_lower content_lower all_tags)).length

/-- `categorize_article(title, content, tags)`: score the two keyword
lists and return `'automotive'` on `car_score >= economy_score`, else
`'economy'`. -/
def categorize_article (title content : String) (tags : List String) :
    String :=
  let car_score := keywordScore car_keywords title content tags
  let economy_score := keywordScore economy_keywords title content tags
  if car_score ≥ economy_score then "automotive" else "economy"

/-- Modelled from the claim's words (for comparison with
`categorize_article`, which it is checked against): a scoring in which a
keyword also hits when it occurs *as a substring of a tag*, rather than
only when it equals a lowercased tag exactly. -/
def keywordScoreSpec (keywords : List String) (title content : String)
    (tags : List String) : Nat :=
  let title_lower := pyLower title
  let content_lower := pyLower content
  let all_tags := tags.map pyLower
  (keywords.filter (fun k =>
    containsSub title_lower k || containsSub content_lower k ||
      all_tags.any (fun t => containsSub t k))).length

/-! ### Retry-bounded AI calls

Each external generation call is modelled with an oracle
`Nat → Option String` giving, for attempt index `i` (0-based), either the
API response text or `none` when that attempt raises. The global flags
`hasKey` (a non-empty API key) and `hasOpenAI`
(`api_type == "openai" and HAS_OPENAI`) are explicit parameters. -/

/-- Count of a character's occurrences (`str.count` for 1-char needles). -/
def countChar (s : String) (c : Char) : Nat :=
  s.toList.count c

/-- `'"' in original_title or "'" in original_title`. -/
def hasQuotes (title : String) : Bool :=
  title.toList.contains '"' || title.toList.contains '\''

/-- The fixed `structure_words` list of `rewrite_title_with_ai`. -/
def structure_words : List String :=
  ["다더니", "라더니", "에서", "드러난", "의", "로", "으로", "월세로"]

/-- The fixed `unnatural_patterns` list of `rewrite_title_with_ai`. -/
def unnatural_patterns : List String :=
  [" 이 안", " 가 안", " 을 안", " 를 안"]

/-- The structure words occurring in a title, in list order
(`[word for word in structure_words if word in title]`). -/
def structureOf (title : String) : List String :=
  structure_words.filter (fun w => containsSub title w)

/-- The validation applied to a stripped title-rewrite candidate: the
quote-count checks, the structure-word set check (quoted titles only), and
the unnatural-pattern check. `true` means the candidate is accepted. -/
def titleCandidateOk (original candidate : String) : Bool :=
  (if hasQuotes original then
    countChar candidate '"' == countChar original '"' &&
    countChar candidate '\'' == countChar original '\'' &&
    structureOf candidate == structureOf original
  else
    countChar candidate '"' == 0 && countChar candidate '\'' == 0) &&
  !(unnatural_patterns.any (fun p => containsSub candidate p))

/-- The `for attempt in range(3)` loop of `rewrite_title_with_ai` over the
remaining attempt indices: an exception (`none`) or a failed validation
retries; an accepted candidate is returned; exhaustion falls back to the
original title. When `hasOpenAI` is false the `else` branch returns the
original title immediately. -/
def titleAttempts (oracle : Nat → Option String) (hasOpenAI : Bool)
    (original : String) : List Nat → String
  | [] => original
  | i :: rest =>
    if hasOpenAI then
      match oracle i with
      | none => titleAttempts oracle hasOpenAI original rest
      | some resp =>
        let candidate := pyStrip resp
        if titleCandidateOk original candidate then candidate
        else titleAttempts oracle hasOpenAI original rest
    else original

/-- `rewrite_title_with_ai(original_title, content, api_key)`: no API key
returns the original; otherwise up to 3 validated attempts with fallback
to the original title. -/
def rewrite_title_with_ai (oracle : Nat → Option String)
    (hasKey hasOpenAI : Bool) (original_title : String) : String :=
  if hasKey then titleAttempts oracle hasOpenAI original_title [0, 1, 2]
  else original_title

/-- Worker for `pyReplace`, with fuel bounding the scan length: at each
position either the (non-empty) pattern matches and is replaced, or one
character is emitted. -/
def pyReplaceAux (pat rep : List Char) : Nat → List Char → List Char
  | 0, s => s
  | fuel + 1, s =>
    if pat ≠ [] ∧ pat.isPrefixOf s then
      rep ++ pyReplaceAux pat rep fuel (s.drop pat.length)
    else
      match s with
      | [] => []
      | c :: t => c :: pyReplaceAux pat rep fuel t

/-- Python's `str.replace(pat, rep)` for a non-empty pattern: replace
every (leftmost-first, non-overlapping) occurrence. -/
def pyReplace (s pat rep : String) : String :=
  String.mk (pyReplaceAux pat.toList rep.toList s.toList.length s.toList)

/-- The post-processing of a successful body-rewrite response:
`strip()`, then `replace('```', '').replace('---', '—')`. -/
def postprocessBody (resp : String) : String :=
  pyReplace (pyReplace (pyStrip resp) "```" "") "---" "—"

/-- The `for attempt in range(3)` loop of `rewrite_with_ai`: a successful
response is returned immediately; an exception on a non-final attempt
retries; an exception on the final attempt raises
`AI rewrite failed after 3 attempts`; falling out of the loop (only
possible when `hasOpenAI` is false) raises the end-of-function error. -/
def bodyAttempts (oracle : Nat → Option String) (hasOpenAI : Bool) :
    List Nat → Except String String
  | [] => .error "AI rewrite failed - unexpected end of function"
  | i :: rest =>
    if hasOpenAI then
      match oracle i with
      | some resp => .ok (postprocessBody resp)
      | none =>
        match rest with
        | [] => .error "AI rewrite failed after 3 attempts"
        | _ => bodyAttempts oracle hasOpenAI rest
    else bodyAttempts oracle hasOpenAI rest

/-- `rewrite_with_ai(original_content, title, api_key)`: raises without an
API key, otherwise runs up to 3 attempts and raises when all fail. The
`Except` models the raised exception. -/
def rewrite_with_ai (oracle : Nat → Option String)
    (hasKey hasOpenAI : Bool) (_original_content _title : String) :
    Except String String :=
  if hasKey then bodyAttempts oracle hasOpenAI [0, 1, 2]
  else .error "No AI API key provided - AI rewrite is mandatory"

/-- The two generic default tags appended by `generate_ai_tags` on
fallback (`["뉴스", "이슈"]`). -/
def defaultTags : List String := ["뉴스", "이슈"]

/-- The `for attempt in range(3)` loop of `generate_ai_tags`. The oracle
yields `some l` when the attempt returned text that `json.loads` parsed to
the list `l`, and `none` when the attempt raised or parsing failed; a
parsed list shorter than 2 falls through to the next attempt. -/
def tagAttempts (oracle : Nat → Option (List String)) (hasOpenAI : Bool)
    (existing_tags : List String) : List Nat → List String
  | [] => existing_tags ++ defaultTags
  | i :: rest =>
    if hasOpenAI then
      match oracle i with
      | some new_tags =>
        if new_tags.length ≥ 2 then existing_tags ++ new_tags.take 2
        else tagAttempts oracle hasOpenAI existing_tags rest
      | none => tagAttempts oracle hasOpenAI existing_tags rest
    else tagAttempts oracle hasOpenAI existing_tags rest

/-- `generate_ai_tags(title, content, existing_tags, api_key)`: without an
API key, or when every attempt fails, the existing tags plus the two
generic default tags; on success the existing tags plus the first two
generated tags. -/
def generate_ai_tags (oracle : Nat → Option (List String))
    (hasKey hasOpenAI : Bool) (existing_tags : List String) : List String :=
  if hasKey then tagAttempts oracle hasOpenAI existing_tags [0, 1, 2]
  else existing_tags ++ defaultTags

/-- Strip a fixed character from both ends (Python `str.strip('"')`). -/
def pyStripChar (s : String) (c : Char) : String :=
  String.mk (((s.toList.dropWhile (· == c)).reverse.dropWhile
    (· == c)).reverse)

/-- `generate_contextual_alt_text(paragraph_text, title, api_key)`: a
single attempt (no retry loop); the response is stripped of whitespace and
surrounding quotes; an exception, an unavailable client, or an empty
result yields the fixed default alt text. -/
def generate_contextual_alt_text (oracle : Option String)
    (hasKey hasOpenAI : Bool) : String :=
  if hasKey then
    if hasOpenAI then
      match oracle with
      | some resp =>
        let alt := pyStrip (pyStripChar (pyStripChar (pyStrip resp) '"') '\'')
        if alt ≠ "" then alt else "기사 관련 이미지"
      | none => "기사 관련 이미지"
    else "기사 관련 이미지"
  else "기사 관련 이미지"

/-! ### Sitemap entry-URL extraction (`main`, lines 1373–1400)

A parsed XML document is a tree of elements; `text` is the element's text
(`None` for an empty element). Namespace resolution is ElementTree glue:
tag names are modelled as the already-resolved names, so the sitemap's
`{http://www.sitemaps.org/schemas/sitemap/0.9}url` is just `"url"`. -/

inductive Xml where
  | elem (name : String) (text : Option String) (children : List Xml)
deriving Repr

/-- An element's tag name. -/
def Xml.name : Xml → String
  | .elem n _ _ => n

/-- An element's text. -/
def Xml.text : Xml → Option String
  | .elem _ t _ => t

/-- An element's children. -/
def Xml.children : Xml → List Xml
  | .elem _ _ cs => cs

mutual
/-- Matches of `findall('.//nm')` inside one subtree, in document order
(the subtree's root included when its name matches). -/
def matchesNode (nm : String) : Xml → List Xml
  | .elem n t cs =>
    (if n = nm then [Xml.elem n t cs] else []) ++ matchesForest nm cs

/-- Matches of `findall('.//nm')` across a forest, in document order. -/
def matchesForest (nm : String) : List Xml → List Xml
  | [] => []
  | x :: xs => matchesNode nm x ++ matchesForest nm xs
end

/-- `root.findall('.//url', namespaces)`: every strict descendant of the
root named `url`, in document order. -/
def findallUrl (root : Xml) : List Xml :=
  matchesForest "url" root.children

/-- `url_elem.find('loc', namespaces)`: the first direct child named
`loc`. -/
def findLoc (url_elem : Xml) : Option Xml :=
  (url_elem.children.filter (fun c => c.name = "loc")).head?

/-- The URL-extraction loop of `main`: for every `url` element, take its
`loc` child's text and append it when it is truthy and contains
`/entry/`. -/
def extractEntryUrls (root : Xml) : List String :=
  (findallUrl root).foldl (fun acc url_elem =>
    match findLoc url_elem with
    | none => acc
    | some loc_elem =>
      match loc_elem.text with
      | none => acc
      | some url =>
        if url ≠ "" ∧ containsSub url "/entry/" then acc ++ [url]
        else acc) []

/-- All `loc` texts of `url` elements, in document order (a specification
view of the same traversal, used to characterise `extractEntryUrls`). -/
def locUrls (root : Xml) : List String :=
  (findallUrl root).filterMap (fun u => (findLoc u).bind Xml.text)

/-- The suffix after the first occurrence of `pat` (empty when `pat` does
not occur). -/
def afterFirst (cs pat : List Char) : List Char :=
  if pat.isPrefixOf cs then cs.drop pat.length
  else match cs with
    | [] => []
    | _ :: t => afterFirst t pat

/-- Modelled from the claim's words (for comparison with the extraction,
which is checked against it): the path component of a URL — everything
from the first `/` after the `scheme://host` prefix up to the query
(`?`) or fragment (`#`). -/
def urlPath (u : String) : String :=
  let afterScheme :=
    if containsSub u "://" then afterFirst u.toList "://".toList
    else u.toList
  let path := afterScheme.dropWhile (fun c => c ≠ '/')
  String.mk (path.takeWhile (fun c => c ≠ '?' ∧ c ≠ '#'))

/-! ### The per-URL processing loop of `main` (lines 1455–1620)

A crawled page (`extract_content_from_url`) is a title, a content string,
a tag list and an image-URL list. A generated artifact is the record
appended to `generated_articles` for the index page and manifest. The
rendered HTML document itself is template substitution; only the output
*filenames* matter for the claims, so the output directory is the list of
filenames already written. File writes are modelled as succeeding (the
`except` path around the write only turns a success into a `failed`
count). -/

structure Article where
  title : String
  content : String
  tags : List String
  images : List String
deriving DecidableEq, Repr

structure Artifact where
  title : String
  filename : String
  tags : List String
  thumbnail : String
  url : String
deriving DecidableEq, Repr

/-- The mutable state of one run: the persistent ledger and output
directory, plus the run-scoped counters and `generated_articles` list. -/
structure RunState where
  db : DB
  files : List String
  processed : Nat
  skipped : Nat
  failed : Nat
  generated_articles : List Artifact
deriving DecidableEq, Repr

/-- The external world of one run: the configuration flags, the crawl
results, and the per-URL AI oracles (attempt-indexed API responses). -/
structure RunEnv where
  hasKey : Bool
  hasOpenAI : Bool
  hasCfToken : Bool
  crawl : String → Option Article
  titleOracle : String → Nat → Option String
  bodyOracle : String → Nat → Option String
  uploadImage : String → Option String

/-- The safe output filename derived from the rewritten title:
`re.sub(r'[^\w\s-]', '', title)`, then `re.sub(r'[-\s]+', '-', ...)`,
then `.strip('-')[:50]`. -/
def safeFilename (title : String) : String :=
  let kept := title.toList.filter
    (fun c => isWordChar c || c.isWhitespace || c == '-')
  let collapse : List Char → List Char := fun cs =>
    (cs.foldr (fun c acc =>
      if c.isWhitespace || c == '-' then
        match acc with
        | '-' :: _ => acc
        | _ => '-' :: acc
      else c :: acc) [])
  let collapsed := collapse kept
  let stripped := ((collapsed.dropWhile (· == '-')).reverse.dropWhile
    (· == '-')).reverse
  String.mk (stripped.take 50)

/-- The filename candidate tried with collision counter `k`:
`{safe}.html`, then `{safe}-1.html`, `{safe}-2.html`, …. -/
def candidateName (safe : String) : Nat → String
  | 0 => safe ++ ".html"
  | k + 1 => safe ++ "-" ++ toString (k + 1) ++ ".html"

/-- The `while os.path.exists(...)` collision loop: the first candidate
name not already present in the output directory. -/
def freshName (files : List String) (safe : String) : String :=
  match (List.range (files.length + 1)).find?
      (fun k => !files.contains (candidateName safe k)) with
  | some k => candidateName safe k
  | none => candidateName safe (files.length + 1)

/-- One iteration of the `for i, url in enumerate(urls)` loop: the
ledger-based skip check, the crawl, the title and body rewrites, the
image uploads, and the HTML file write with its counters. The ledger is
never written to — `mark_article_processed` is not called anywhere in
`main`. -/
def processUrl (env : RunEnv) (st : RunState) (url : String) : RunState :=
  if urlPresent st.db url then
    { st with skipped := st.skipped + 1 }
  else
    match env.crawl url with
    | none => { st with failed := st.failed + 1 }
    | some article_data =>
      if env.hasKey then
        let new_title := rewrite_title_with_ai (env.titleOracle url)
          env.hasKey env.hasOpenAI article_data.title
        if new_title ≠ "" ∧ new_title ≠ article_data.title then
          match rewrite_with_ai (env.bodyOracle url) env.hasKey
              env.hasOpenAI article_data.content new_title with
          | .error _ => { st with failed := st.failed + 1 }
          | .ok rewritten_content =>
            if rewritten_content ≠ "" ∧
                rewritten_content ≠ article_data.content then
              let cloudflare_images :=
                if env.hasCfToken ∧ article_data.images ≠ [] then
                  (article_data.images.take 5).filterMap env.uploadImage
                else []
              let fname := freshName st.files (safeFilename new_title)
              { st with
                files := st.files ++ [fname]
                processed := st.processed + 1
                generated_articles := st.generated_articles ++
                  [{ title := new_title
                     filename := fname
                     tags := article_data.tags ++ ["AI재작성", "자동포스팅"]
                     thumbnail := cloudflare_images.headD ""
                     url := url }] }
            else { st with failed := st.failed + 1 }
        else { st with failed := st.failed + 1 }
      else { st with failed := st.failed + 1 }

/-- The whole per-URL loop of one run over the URL list. -/
def runLoop (env : RunEnv) (urls : List String) (st : RunState) : RunState :=
  urls.foldl (processUrl env) st

/-- The initial state of a run: the persisted ledger and output directory
carried over from earlier runs, counters at zero, no generated articles
(`init_processed_db` has already ensured the database exists). -/
def initRunState (persistedDb : Option DB) (persistedFiles : List String) :
    RunState :=
  { db := init_processed_db persistedDb
    files := persistedFiles
    processed := 0
    skipped := 0
    failed := 0
    generated_articles := [] }

/-! ### End-of-run manifest and index writing (`main`, lines 1646–1674) -/

/-- The `meta` object of `articles.json`:
`total_articles = len(generated_articles)` and
`with_images = sum(1 for article in generated_articles if
article.get('thumbnail'))` (a non-empty thumbnail is truthy). -/
structure ManifestMeta where
  total_articles : Nat
  with_images : Nat
deriving DecidableEq, Repr

/-- The meta block computed for a run's generated articles. -/
def manifestMeta (generated_articles : List Artifact) : ManifestMeta :=
  { total_articles := generated_articles.length
    with_images :=
      (generated_articles.filter (fun a => a.thumbnail ≠ "")).length }

/-- The aggregate files written at the end of a run: `if
generated_articles:` guards both `articles.json` and `index.html`, so a
run with no generated article writes neither. -/
def finalWrites (generated_articles : List Artifact) : List String :=
  if generated_articles.isEmpty then []
  else ["articles.json", "index.html"]

/-- A concrete external world exercising the success path of the loop: the
crawl of the single entry URL succeeds, the first title-rewrite attempt
returns the valid new title `"T2"`, and the first body-rewrite attempt
returns new content. -/
def demoEnv : RunEnv :=
  { hasKey := true
    hasOpenAI := true
    hasCfToken := false
    crawl := fun u =>
      if u = "https://blog.example.com/entry/1" then
        some ⟨"T", "C", ["뉴스"], []⟩
      else none
    titleOracle := fun _ i => if i = 0 then some "T2" else none
    bodyOracle := fun _ i => if i = 0 then some "C2" else none
    uploadImage := fun _ => none }

/-- The single entry URL of the two-run scenario. -/
def demoUrl : String := "https://blog.example.com/entry/1"

/-! ## Lemmas -/

lemma length_filter_pos_iff_any {α} (l : List α) (p : α → Bool) :
    0 < (l.filter p).length ↔ l.any p = true := by
  rw [List.length_pos, List.any_eq_true]
  constructor
  · intro hne
    obtain ⟨a, ha⟩ := List.exists_mem_of_ne_nil _ hne
    exact ⟨a, (List.mem_filter.mp ha).1, (List.mem_filter.mp ha).2⟩
  · rintro ⟨a, hmem, hpa⟩ hnil
    exact (List.filter_eq_nil_iff.mp hnil) a hmem hpa

lemma countUrl_mark_self (db : DB) (u t h : String) :
    countUrl (mark_article_processed db u t h) u = 1 := by
  unfold countUrl mark_article_processed
  rw [List.filter_append, List.filter_filter]
  simp [bne]

lemma countUrl_mark_other (db : DB) (u t h v : String) (hne : v ≠ u) :
    countUrl (mark_article_processed db u t h) v = countUrl db v := by
  unfold countUrl mark_article_processed
  rw [List.filter_append, List.filter_filter]
  have h1 : (fun r : Row => r.url == v && r.url != u) =
      (fun r : Row => r.url == v) := by
    funext r
    by_cases hr : r.url = v
    · simp [hr, bne, hne]
    · simp [hr]
  have h2 : List.filter (fun r : Row => r.url == v)
      [⟨db.nextId, u, t, h⟩] = [] := by
    simp [Ne.symm hne]
  rw [h1, h2, List.append_nil]

lemma countUrl_mark_le (db : DB) (u t h : String)
    (inv : ∀ v, countUrl db v ≤ 1) :
    ∀ v, countUrl (mark_article_processed db u t h) v ≤ 1 := by
  intro v
  by_cases hv : v = u
  · subst hv; rw [countUrl_mark_self]
  · rw [countUrl_mark_other db u t h v hv]; exact inv v

lemma applyMarks_inv (ms : List (String × String × String)) :
    ∀ db : DB, (∀ v, countUrl db v ≤ 1) →
      ∀ v, countUrl (applyMarks db ms) v ≤ 1 := by
  induction ms with
  | nil => intro db inv v; exact inv v
  | cons m rest ih =>
    intro db inv v
    exact ih (mark_article_processed db m.1 m.2.1 m.2.2)
      (countUrl_mark_le db m.1 m.2.1 m.2.2 inv) v

lemma countUrl_init_none (v : String) :
    countUrl (init_processed_db none) v = 0 := rfl

lemma length_filter_not_add (l : List Row) (u : String) :
    (l.filter (fun r => r.url != u)).length +
      (l.filter (fun r => r.url == u)).length = l.length := by
  have h := @List.length_eq_length_filter_add Row l (fun r => r.url == u)
  have hfun : (fun r : Row => !(r.url == u)) = (fun r : Row => r.url != u) := by
    funext r; simp [bne]
  rw [hfun] at h
  omega

lemma mark_rows_length_of_present (db : DB) (u t h : String)
    (inv : ∀ v, countUrl db v ≤ 1) (hp : urlPresent db u = true) :
    (mark_article_processed db u t h).rows.length = db.rows.length := by
  have h1 : 0 < countUrl db u :=
    (length_filter_pos_iff_any db.rows (fun r => r.url == u)).mpr hp
  have hcount : countUrl db u = 1 := le_antisymm (inv u) h1
  have hpart := length_filter_not_add db.rows u
  unfold mark_article_processed
  simp only [List.length_append, List.length_cons, List.length_nil]
  unfold countUrl at hcount
  omega

lemma urlPresent_mark (db : DB) (u t h v : String)
    (hv : urlPresent db v = true) :
    urlPresent (mark_article_processed db u t h) v = true := by
  unfold urlPresent mark_article_processed at *
  rw [List.any_append, Bool.or_eq_true]
  by_cases hvu : v = u
  · right; simp [hvu]
  · left
    rw [List.any_eq_true] at hv ⊢
    obtain ⟨r, hmem, hru⟩ := hv
    refine ⟨r, List.mem_filter.mpr ⟨hmem, ?_⟩, hru⟩
    have : r.url = v := by simpa using hru
    simp [bne, this, hvu]

/-! ## Claim theorems -/

/-- **C2.** For every URL `u` already present as a row in the ledger, the
duplicate check `is_article_processed u t h` returns `True` for every
title `t` and fingerprint `h`; when there is no exact URL match it returns
`True` exactly when some row's fingerprint equals `h`; and in all cases
the lookup leaves the ledger's contents unchanged. -/
theorem is_article_processed_lookup (db : DB) (u t h : String) :
    (urlPresent db u = true → (is_article_processed db u t h).1 = true) ∧
    (urlPresent db u = false →
      ((is_article_processed db u t h).1 = true ↔
        ∃ r ∈ db.rows, r.hash = h)) ∧
    (is_article_processed db u t h).2 = db := by
  have hurl := length_filter_pos_iff_any db.rows (fun r => r.url == u)
  have hhash := length_filter_pos_iff_any db.rows (fun r => r.hash == h)
  unfold is_article_processed urlPresent at *
  refine ⟨?_, ?_, ?_⟩
  · intro hp
    rw [if_pos (hurl.mpr hp)]
  · intro hnp
    have hcond : ¬ 0 < (db.rows.filter (fun r => r.url == u)).length := by
      intro hpos
      rw [hurl, hnp] at hpos
      exact Bool.false_ne_true hpos
    rw [if_neg hcond]
    simp only [decide_eq_true_eq]
    rw [gt_iff_lt, hhash, List.any_eq_true]
    constructor
    · rintro ⟨r, hm, hr⟩; exact ⟨r, hm, by simpa using hr⟩
    · rintro ⟨r, hm, hr⟩; exact ⟨r, hm, by simpa using hr⟩
  · by_cases hc : 0 < (db.rows.filter (fun r => r.url == u)).length
    · rw [if_pos hc]
    · rw [if_neg hc]

/-- Witness for **C2**: a ledger holding the row
`(1, "u", "t", "h")` reports `"u"` as processed under an unrelated title
and fingerprint, and a ledger holding `(1, "a", "t", "h")` reports a new
URL `"b"` with the recorded fingerprint `"h"` as processed. -/
theorem is_article_processed_lookup_witness :
    (is_article_processed ⟨[⟨1, "u", "t", "h"⟩], 2⟩ "u" "x" "y").1 = true ∧
    (is_article_processed ⟨[⟨1, "a", "t", "h"⟩], 2⟩ "b" "x" "h").1 = true := by
  refine ⟨(is_article_processed_lookup ⟨[⟨1, "u", "t", "h"⟩], 2⟩ "u" "x" "y").1
    (by decide), ?_⟩
  exact ((is_article_processed_lookup ⟨[⟨1, "a", "t", "h"⟩], 2⟩ "b" "x" "h").2.1
    (by decide)).mpr ⟨⟨1, "a", "t", "h"⟩, by simp, rfl⟩

/-- **C3.** After any sequence of `mark_article_processed` calls starting
from the initialised database, the `processed_articles` table holds at
most one live row per URL; marking an already-recorded URL again replaces
that URL's row (leaving exactly one row for it and the total row count
unchanged) instead of adding a second one; and the URLs present are never
deleted by a further mark. -/
theorem mark_article_processed_ledger (ms : List (String × String × String))
    (u t h : String) :
    (∀ v, countUrl (applyMarks (init_processed_db none) ms) v ≤ 1) ∧
    countUrl (mark_article_processed (applyMarks (init_processed_db none) ms)
      u t h) u = 1 ∧
    (urlPresent (applyMarks (init_processed_db none) ms) u = true →
      (mark_article_processed (applyMarks (init_processed_db none) ms)
        u t h).rows.length =
      (applyMarks (init_processed_db none) ms).rows.length) ∧
    (∀ v, urlPresent (applyMarks (init_processed_db none) ms) v = true →
      urlPresent (mark_article_processed (applyMarks (init_processed_db none) ms)
        u t h) v = true) := by
  have inv := applyMarks_inv ms (init_processed_db none)
    (fun v => Nat.le_of_eq (countUrl_init_none v) |>.trans (Nat.zero_le 1))
  refine ⟨inv, countUrl_mark_self _ u t h, ?_, ?_⟩
  · intro hp
    exact mark_rows_length_of_present _ u t h inv hp
  · intro v hv
    exact urlPresent_mark _ u t h v hv

/-- Witness for **C3**: after marking `("u","t","h")` and then re-marking
`"u"` with a new title and fingerprint, the ledger still holds exactly one
row for `"u"` and the same number of rows, and `"u"` remains present. -/
theorem mark_article_processed_ledger_witness :
    countUrl (mark_article_processed (applyMarks (init_processed_db none) [("u", "t", "h")]) "u" "t2" "h2") "u" = 1 ∧
    (mark_article_processed (applyMarks (init_processed_db none) [("u", "t", "h")]) "u" "t2" "h2").rows.length =
      (applyMarks (init_processed_db none) [("u", "t", "h")]).rows.length ∧
    urlPresent (mark_article_processed (applyMarks (init_processed_db none) [("u", "t", "h")]) "u" "t2" "h2") "u" = true := by
  have h := mark_article_processed_ledger [("u", "t", "h")] "u" "t2" "h2"
  exact ⟨h.2.1, h.2.2.1 (by decide), h.2.2.2 "u" (by decide)⟩

/-- Counterexample to **C4** as stated: the fingerprint is the MD5 of the
plain concatenation `title ++ url`, so the two *distinct* pairs
`("ab", "c")` and `("a", "bc")` deterministically collide. -/
theorem get_article_hash_collision :
    get_article_hash "ab" "c" = get_article_hash "a" "bc" ∧
    ¬("ab" = "a" ∧ "c" = "bc") := by
  constructor
  · unfold get_article_hash
    have h : ("ab" ++ "c" : String) = "a" ++ "bc" := by decide
    rw [h]
  · decide

/-- **C4**, amended. Fingerprint generation is a deterministic pure
function of the `(title, URL)` pair, and any two pairs whose plain
concatenations `title ++ url` coincide receive the identical fingerprint
— so distinct pairs are *not* guaranteed distinct fingerprints. -/
theorem get_article_hash_deterministic :
    (∀ t u : String, get_article_hash t u = get_article_hash t u) ∧
    ∀ t₁ u₁ t₂ u₂ : String, t₁ ++ u₁ = t₂ ++ u₂ →
      get_article_hash t₁ u₁ = get_article_hash t₂ u₂ := by
  refine ⟨fun _ _ => rfl, fun t₁ u₁ t₂ u₂ hcat => ?_⟩
  unfold get_article_hash
  rw [hcat]

/-- Witness for **C4**: the deterministic-collision theorem applied at the
concrete pairs `("ab", "c")` and `("a", "bc")`. -/
theorem get_article_hash_deterministic_witness :
    get_article_hash "ab" "c" = get_article_hash "a" "bc" :=
  get_article_hash_deterministic.2 "ab" "c" "a" "bc" (by decide)

/-- Counterexample to **C8** as stated: a keyword occurring only as a
*substring* of a tag is not counted — `"경제"` is a substring of the tag
`"경제뉴스"` but equals no tag, so the code scores 0–0 and returns
`'automotive'` where the claimed substring scoring gives economy 1,
automotive 0 (hence `'economy'`). -/
theorem categorize_article_tag_substring_counterexample :
    categorize_article "x" "y" ["경제뉴스"] = "automotive" ∧
    keywordScoreSpec car_keywords "x" "y" ["경제뉴스"] = 0 ∧
    keywordScoreSpec economy_keywords "x" "y" ["경제뉴스"] = 1 ∧
    keywordScore car_keywords "x" "y" ["경제뉴스"] = 0 ∧
    keywordScore economy_keywords "x" "y" ["경제뉴스"] = 0 := by
  decide

/-- **C8**, amended. Categorisation is deterministic and total: every
`(title, body, tags)` triple maps to exactly one of `'automotive'` and
`'economy'`; each score counts the keywords of its fixed list matching
case-insensitively as a substring of the title or the body, or equalling
one of the lowercased tags; the higher score wins and ties resolve to
`'automotive'`. -/
theorem categorize_article_total (title content : String)
    (tags : List String) :
    (categorize_article title content tags = "automotive" ∨
      categorize_article title content tags = "economy") ∧
    (categorize_article title content tags = "automotive" ↔
      keywordScore economy_keywords title content tags ≤
        keywordScore car_keywords title content tags) := by
  unfold categorize_article
  by_cases hc : keywordScore economy_keywords title content tags ≤
      keywordScore car_keywords title content tags
  · rw [if_pos hc]
    exact ⟨Or.inl rfl, iff_of_true rfl hc⟩
  · rw [if_neg hc]
    refine ⟨Or.inr rfl, iff_of_false ?_ hc⟩
    decide

/-- Witness for **C8**: the amended theorem applied at a concrete triple —
`"tesla"` in the title outscores the economy list, so the label is
`'automotive'`. -/
theorem categorize_article_total_witness :
    categorize_article "tesla" "" [] = "automotive" :=
  (categorize_article_total "tesla" "" []).2.mpr (by decide)

end Q

namespace Q

lemma titleAttempts_cases (oracle : Nat → Option String) (ho : Bool)
    (orig : String) (l : List Nat) :
    titleAttempts oracle ho orig l = orig ∨
    ∃ i ∈ l, ∃ resp, oracle i = some resp ∧
      titleAttempts oracle ho orig l = pyStrip resp ∧
      titleCandidateOk orig (pyStrip resp) = true := by
  induction l with
  | nil => exact Or.inl rfl
  | cons i rest ih =>
    cases ho with
    | false => exact Or.inl rfl
    | true =>
      cases hor : oracle i with
      | none =>
        have hred : titleAttempts oracle true orig (i :: rest) =
            titleAttempts oracle true orig rest := by
          simp only [titleAttempts, hor, if_true]
        rw [hred]
        rcases ih with h | ⟨j, hj, resp, hresp, hval, hok⟩
        · exact Or.inl h
        · exact Or.inr ⟨j, List.mem_cons_of_mem i hj, resp, hresp, hval, hok⟩
      | some resp =>
        by_cases hok : titleCandidateOk orig (pyStrip resp) = true
        · have hred : titleAttempts oracle true orig (i :: rest) =
              pyStrip resp := by
            simp only [titleAttempts, hor, if_true, hok, if_pos]
          rw [hred]
          exact Or.inr ⟨i, List.mem_cons_self i rest, resp, hor, rfl, hok⟩
        · have hred : titleAttempts oracle true orig (i :: rest) =
              titleAttempts oracle true orig rest := by
            simp only [titleAttempts, hor, if_true]
            rw [if_neg hok]
          rw [hred]
          rcases ih with h | ⟨j, hj, resp', hresp', hval', hok'⟩
          · exact Or.inl h
          · exact Or.inr ⟨j, List.mem_cons_of_mem i hj, resp', hresp', hval', hok'⟩

lemma hasQuotes_false_counts (title : String) (h : hasQuotes title = false) :
    countChar title '"' = 0 ∧ countChar title '\'' = 0 := by
  unfold hasQuotes at h
  rw [Bool.or_eq_false_iff] at h
  unfold countChar
  constructor
  · rw [List.count_eq_zero]
    simpa using h.1
  · rw [List.count_eq_zero]
    simpa using h.2

lemma titleCandidateOk_counts (orig cand : String)
    (h : titleCandidateOk orig cand = true) :
    countChar cand '"' = countChar orig '"' ∧
    countChar cand '\'' = countChar orig '\'' := by
  unfold titleCandidateOk at h
  rw [Bool.and_eq_true] at h
  cases hq : hasQuotes orig with
  | true =>
    rw [if_pos hq, Bool.and_eq_true, Bool.and_eq_true] at h
    exact ⟨by simpa using h.1.1.1, by simpa using h.1.1.2⟩
  | false =>
    rw [if_neg (by simp [hq]), Bool.and_eq_true] at h
    have horig := hasQuotes_false_counts orig hq
    rw [horig.1, horig.2]
    exact ⟨by simpa using h.1.1, by simpa using h.1.2⟩

/-- **C6.** Title-rewrite validation: the returned title always has
exactly the original's double-quote count and single-quote count (so for a
quoted original any candidate with differing counts is never returned, and
for a quote-free original no candidate containing a quotation mark is ever
returned); and when every one of the 3 attempts fails — raising, or
producing a candidate the validation rejects — the original title is
returned unchanged. -/
theorem rewrite_title_quote_safety (oracle : Nat → Option String)
    (hasKey hasOpenAI : Bool) (orig : String) :
    countChar (rewrite_title_with_ai oracle hasKey hasOpenAI orig) '"' =
      countChar orig '"' ∧
    countChar (rewrite_title_with_ai oracle hasKey hasOpenAI orig) '\'' =
      countChar orig '\'' ∧
    ((∀ i < 3, ∀ resp, oracle i = some resp →
        titleCandidateOk orig (pyStrip resp) = false) →
      rewrite_title_with_ai oracle hasKey hasOpenAI orig = orig) := by
  unfold rewrite_title_with_ai
  by_cases hk : hasKey = true
  · rw [if_pos hk]
    rcases titleAttempts_cases oracle hasOpenAI orig [0, 1, 2] with
      h | ⟨i, hi, resp, hresp, hval, hok⟩
    · rw [h]; exact ⟨rfl, rfl, fun _ => rfl⟩
    · have hcnt := titleCandidateOk_counts orig (pyStrip resp) hok
      rw [hval]
      refine ⟨hcnt.1, hcnt.2, fun hall => ?_⟩
      have hi3 : i < 3 := by
        simp only [List.mem_cons, List.not_mem_nil, or_false] at hi
        rcases hi with rfl | rfl | rfl <;> omega
      rw [hall i hi3 resp hresp] at hok
      exact absurd hok (by decide)
  · rw [if_neg hk]
    exact ⟨rfl, rfl, fun _ => rfl⟩

/-- Witness for **C6**: with a quote-free original `"T"` and an oracle
whose every response contains a double quote, all 3 attempts are rejected
and the original title is returned. -/
theorem rewrite_title_quote_safety_witness :
    rewrite_title_with_ai (fun _ => some "ba\"d") true true "T" = "T" := by
  apply (rewrite_title_quote_safety (fun _ => some "ba\"d") true true "T").2.2
  intro i _ resp hresp
  cases hresp
  decide

/-- **C7.** Every external generation call consults at most the first 3
oracle attempts (its result is unchanged by any oracle agreeing on
attempts 0–2; the descriptive alt-text call makes a single attempt by its
very signature); when all 3 body-rewrite attempts fail, `rewrite_with_ai`
raises (returns an error, hence returns no body at all); and
`generate_ai_tags` returns the existing tags plus exactly the two generic
default tags both when the service is unavailable (no key) and when all
attempts are exhausted. -/
theorem generation_retry_bounds :
    (∀ (o o' : Nat → Option String) (hk ho : Bool) (c t : String),
      (∀ i < 3, o i = o' i) →
      rewrite_with_ai o hk ho c t = rewrite_with_ai o' hk ho c t) ∧
    (∀ (o o' : Nat → Option String) (hk ho : Bool) (orig : String),
      (∀ i < 3, o i = o' i) →
      rewrite_title_with_ai o hk ho orig = rewrite_title_with_ai o' hk ho orig) ∧
    (∀ (o o' : Nat → Option (List String)) (hk ho : Bool) (ex : List String),
      (∀ i < 3, o i = o' i) →
      generate_ai_tags o hk ho ex = generate_ai_tags o' hk ho ex) ∧
    (∀ (o : Nat → Option String) (ho : Bool) (c t : String),
      (∀ i < 3, o i = none) →
      ∃ e, rewrite_with_ai o true ho c t = Except.error e) ∧
    (∀ (o : Nat → Option (List String)) (ho : Bool) (ex : List String),
      generate_ai_tags o false ho ex = ex ++ defaultTags) ∧
    (∀ (o : Nat → Option (List String)) (hk ho : Bool) (ex : List String),
      (∀ i < 3, o i = none) →
      generate_ai_tags o hk ho ex = ex ++ defaultTags) ∧
    (∀ hk ho : Bool,
      generate_contextual_alt_text none hk ho = "기사 관련 이미지") := by
  refine ⟨?_, ?_, ?_, ?_, ?_, ?_, ?_⟩
  · intro o o' hk ho c t hag
    have e0 := hag 0 (by omega)
    have e1 := hag 1 (by omega)
    have e2 := hag 2 (by omega)
    unfold rewrite_with_ai
    simp only [bodyAttempts, e0, e1, e2]
  · intro o o' hk ho orig hag
    have e0 := hag 0 (by omega)
    have e1 := hag 1 (by omega)
    have e2 := hag 2 (by omega)
    unfold rewrite_title_with_ai
    simp only [titleAttempts, e0, e1, e2]
  · intro o o' hk ho ex hag
    have e0 := hag 0 (by omega)
    have e1 := hag 1 (by omega)
    have e2 := hag 2 (by omega)
    unfold generate_ai_tags
    simp only [tagAttempts, e0, e1, e2]
  · intro o ho c t hfail
    have e0 := hfail 0 (by omega)
    have e1 := hfail 1 (by omega)
    have e2 := hfail 2 (by omega)
    cases ho with
    | false =>
      exact ⟨"AI rewrite failed - unexpected end of function",
        by simp [rewrite_with_ai, bodyAttempts]⟩
    | true =>
      exact ⟨"AI rewrite failed after 3 attempts",
        by simp [rewrite_with_ai, bodyAttempts, e0, e1, e2]⟩
  · intro o ho ex
    rfl
  · intro o hk ho ex hfail
    have e0 := hfail 0 (by omega)
    have e1 := hfail 1 (by omega)
    have e2 := hfail 2 (by omega)
    cases hk with
    | false => rfl
    | true =>
      cases ho with
      | false => simp [generate_ai_tags, tagAttempts]
      | true => simp [generate_ai_tags, tagAttempts, e0, e1, e2]
  · intro hk ho
    cases hk <;> cases ho <;> rfl

/-- Witness for **C7**: with an oracle whose every attempt fails, the body
rewrite raises and the tag generation returns the two generic default
tags; the alt-text fallback also returns its fixed default. -/
theorem generation_retry_bounds_witness :
    (∃ e, rewrite_with_ai (fun _ => none) true true "c" "t" =
      Except.error e) ∧
    generate_ai_tags (fun _ => none) true true ["국제"] =
      ["국제", "뉴스", "이슈"] ∧
    generate_contextual_alt_text none true true = "기사 관련 이미지" := by
  refine ⟨generation_retry_bounds.2.2.2.1 (fun _ => none) true "c" "t"
    (fun _ _ => rfl), ?_, ?_⟩
  · exact generation_retry_bounds.2.2.2.2.2.1 (fun _ => none) true true
      ["국제"] (fun _ _ => rfl)
  · exact generation_retry_bounds.2.2.2.2.2.2 true true

end Q

namespace Q

lemma titleTokens_eq_empty_of_norm_empty (s : String)
    (h : normalizeTitle s = "") : titleTokens s = ∅ := by
  unfold titleTokens
  rw [h]
  rfl

lemma jaccard_facts (A B : Finset String)
    (h : jaccard A B > 95 / 100) :
    (A ∩ B).card ≠ 0 ∧ A ≠ ∅ ∧ B ≠ ∅ ∧ (A ∪ B).card ≠ 0 := by
  have hI : (A ∩ B).card ≠ 0 := by
    intro h0
    unfold jaccard at h
    rw [h0] at h
    simp only [Nat.cast_zero, zero_div] at h
    exact absurd h (by norm_num)
  have hIA : A ∩ B ≠ ∅ := by
    intro h0
    rw [h0] at hI
    exact hI rfl
  refine ⟨hI, ?_, ?_, ?_⟩
  · intro h0
    exact hIA (by rw [h0]; exact Finset.empty_inter B)
  · intro h0
    exact hIA (by rw [h0]; exact Finset.inter_empty A)
  · intro h0
    have hsub : (A ∩ B).card ≤ (A ∪ B).card :=
      Finset.card_le_card (Finset.inter_subset_union)
    omega

lemma jaccard_gt_iff (A B : Finset String) (hU : (A ∪ B).card ≠ 0) :
    jaccard A B > 95 / 100 ↔
      95 * (A ∪ B).card < 100 * (A ∩ B).card := by
  have hUpos : (0 : ℚ) < ((A ∪ B).card : ℚ) := by
    exact_mod_cast Nat.pos_of_ne_zero hU
  unfold jaccard
  rw [gt_iff_lt, div_lt_div_iff₀ (by norm_num) hUpos]
  constructor
  · intro h'
    have hq : (95 * (A ∪ B).card : ℚ) < (100 * (A ∩ B).card : ℚ) := by
      linarith
    exact_mod_cast hq
  · intro h'
    have hq : (95 * (A ∪ B).card : ℚ) < (100 * (A ∩ B).card : ℚ) := by
      exact_mod_cast h'
    linarith

/-- **C5.** For every `.md` file under the output directory whose first
`title: "..."` line captures a stored title, and every candidate title
whose normalised-token Jaccard similarity with that stored title exceeds
0.95, the file-system fallback duplicate check reports a duplicate —
regardless of the URL and fingerprint arguments. -/
theorem check_existing_articles_jaccard
    (files : List (String × String)) (article_hash title url : String)
    (name content : String) (cap : List Char)
    (hmem : (name, content) ∈ files)
    (hmd : pyEndsWith name ".md" = true)
    (hcap : searchTitleCapture content.toList = some cap)
    (hjac : jaccard (titleTokens title) (titleTokens (String.mk cap)) >
      95 / 100) :
    check_existing_articles (some files) article_hash title url = true := by
  obtain ⟨hI, hA, hB, hU⟩ :=
    jaccard_facts (titleTokens title) (titleTokens (String.mk cap)) hjac
  have hnt : normalizeTitle title ≠ "" := by
    intro h0
    exact hA (titleTokens_eq_empty_of_norm_empty title h0)
  have hne : normalizeTitle (String.mk cap) ≠ "" := by
    intro h0
    exact hB (titleTokens_eq_empty_of_norm_empty (String.mk cap) h0)
  unfold check_existing_articles
  rw [List.any_eq_true]
  refine ⟨(name, content), hmem, ?_⟩
  rw [Bool.and_eq_true]
  refine ⟨hmd, ?_⟩
  simp only [fileIsDuplicate, hcap]
  by_cases h1 : containsSub content ("source_url: \"" ++ url ++ "\"") = true
  · rw [if_pos h1]
  · rw [if_neg h1]
    by_cases h2 : containsSub content ("hash: " ++ article_hash) = true
    · rw [if_pos h2]
    · rw [if_neg h2]
      rw [if_pos ⟨hnt, hne⟩]
      rw [if_pos ⟨hA, hB⟩]
      rw [decide_eq_true_eq]
      exact (jaccard_gt_iff (titleTokens title) (titleTokens (String.mk cap))
        hU).mp hjac

/-- Witness for **C5**: a stored document `a.md` embedding
`title: "hello world"` makes the candidate title `"Hello, world!"`
(identical token set, similarity 1) report as a duplicate. -/
theorem check_existing_articles_jaccard_witness :
    check_existing_articles
      (some [("a.md", "---\ntitle: \"hello world\"\n---\nbody")])
      "x" "Hello, world!" "u" = true := by
  refine check_existing_articles_jaccard _ "x" "Hello, world!" "u" "a.md"
    "---\ntitle: \"hello world\"\n---\nbody" ("hello world".toList)
    ?_ ?_ ?_ ?_
  · simp
  · decide
  · decide
  · have hI : (titleTokens "Hello, world!" ∩
        titleTokens (String.mk "hello world".toList)).card = 2 := by decide
    have huse : (titleTokens "Hello, world!" ∪
        titleTokens (String.mk "hello world".toList)).card = 2 := by decide
    unfold jaccard
    rw [hI, huse]
    norm_num

end Q

namespace Q

lemma containsSub_entry_ne_empty (u : String)
    (h : containsSub u "/entry/" = true) : u ≠ "" := by
  intro h0
  subst h0
  exact absurd h (by decide)

lemma extractEntryUrls_foldl (l : List Xml) (acc : List String) :
    l.foldl (fun acc url_elem =>
      match findLoc url_elem with
      | none => acc
      | some loc_elem =>
        match loc_elem.text with
        | none => acc
        | some url =>
          if url ≠ "" ∧ containsSub url "/entry/" then acc ++ [url]
          else acc) acc =
    acc ++ ((l.filterMap (fun u => (findLoc u).bind Xml.text)).filter
      (fun u => containsSub u "/entry/")) := by
  induction l generalizing acc with
  | nil => simp
  | cons x xs ih =>
    rw [List.foldl_cons, List.filterMap_cons]
    cases hloc : findLoc x with
    | none =>
      simp only [hloc, Option.none_bind]
      rw [ih]
    | some loc =>
      cases htext : loc.text with
      | none =>
        simp only [hloc, htext, Option.some_bind]
        rw [ih]
      | some u =>
        simp only [hloc, htext, Option.some_bind]
        by_cases hc : containsSub u "/entry/" = true
        · have hne : u ≠ "" := containsSub_entry_ne_empty u hc
          rw [if_pos ⟨hne, hc⟩, ih]
          simp [List.filter_cons, hc]
        · have hcf : ¬(u ≠ "" ∧ containsSub u "/entry/" = true) := by
            intro hand
            exact hc hand.2
          rw [if_neg hcf, ih]
          simp [List.filter_cons, hc]

/-- **C9**, amended. Entry-URL extraction takes, in document order,
exactly those `<loc>` URLs of `url` elements that contain `/entry/` as a
substring *of the whole URL* (not merely of its path component); in
particular a sitemap with three entry URLs and one non-entry URL yields
exactly the three entry URLs in document order. -/
theorem extractEntryUrls_spec :
    (∀ root : Xml, extractEntryUrls root =
      (locUrls root).filter (fun u => containsSub u "/entry/")) ∧
    extractEntryUrls (.elem "urlset" none
      [ .elem "url" none [.elem "loc" (some "https://b.example/entry/1") []],
        .elem "url" none [.elem "loc" (some "https://b.example/entry/2") []],
        .elem "url" none [.elem "loc" (some "https://b.example/notice/3") []],
        .elem "url" none [.elem "loc" (some "https://b.example/entry/4") []] ])
      = ["https://b.example/entry/1", "https://b.example/entry/2",
         "https://b.example/entry/4"] := by
  constructor
  · intro root
    unfold extractEntryUrls locUrls
    rw [extractEntryUrls_foldl]
    rfl
  · decide

/-- Counterexample to **C9** as stated: the code tests `/entry/` as a
substring of the *whole* URL, so a URL carrying `/entry/` only in its
query string is extracted although its path does not contain the
`/entry/` segment. -/
theorem extractEntryUrls_path_counterexample :
    extractEntryUrls (.elem "urlset" none
      [.elem "url" none
        [.elem "loc" (some "https://example.com/a?q=/entry/x") []]]) =
      ["https://example.com/a?q=/entry/x"] ∧
    urlPath "https://example.com/a?q=/entry/x" = "/a" ∧
    containsSub (urlPath "https://example.com/a?q=/entry/x") "/entry/" =
      false := by
  decide

end Q

namespace Q

lemma processUrl_artifacts (env : RunEnv) (st : RunState) (url : String)
    (hinv : st.generated_articles.length = st.processed) :
    (processUrl env st url).generated_articles.length =
      (processUrl env st url).processed := by
  by_cases h1 : urlPresent st.db url = true
  · simp [processUrl, h1, hinv]
  · cases hcr : env.crawl url with
    | none => simp [processUrl, h1, hcr, hinv]
    | some a =>
      by_cases hk : env.hasKey = true
      · by_cases ht : (rewrite_title_with_ai (env.titleOracle url) true
            env.hasOpenAI a.title ≠ "" ∧
          rewrite_title_with_ai (env.titleOracle url) true
            env.hasOpenAI a.title ≠ a.title)
        · cases hb : rewrite_with_ai (env.bodyOracle url) true
              env.hasOpenAI a.content (rewrite_title_with_ai
                (env.titleOracle url) true env.hasOpenAI a.title) with
          | error e => simp [processUrl, h1, hcr, hk, ht, hb, hinv]
          | ok rc =>
            by_cases hc : (rc ≠ "" ∧ rc ≠ a.content)
            · simp [processUrl, h1, hcr, hk, ht, hb, hc, hinv]
            · simp [processUrl, h1, hcr, hk, ht, hb, hc, hinv]
        · simp [processUrl, h1, hcr, hk, ht, hinv]
      · simp [processUrl, h1, hcr, hk, hinv]

lemma runLoop_artifacts (env : RunEnv) (urls : List String) :
    ∀ st : RunState, st.generated_articles.length = st.processed →
      (runLoop env urls st).generated_articles.length =
        (runLoop env urls st).processed := by
  induction urls with
  | nil => intro st h; exact h
  | cons u rest ih =>
    intro st h
    exact ih (processUrl env st u) (processUrl_artifacts env st u h)

/-- **C10.** The aggregate manifest `articles.json` and the index page
`index.html` are written exactly when the run generated at least one
article (`processed > 0`); when written, they are exactly those two files,
the manifest's `meta.total_articles` equals the number of generated
artifacts (which equals the `processed` counter), and `meta.with_images`
equals the number of artifacts with a non-empty thumbnail. -/
theorem final_manifest_spec (env : RunEnv) (urls : List String)
    (pdb : Option DB) (pfiles : List String) (st : RunState)
    (hst : st = runLoop env urls (initRunState pdb pfiles)) :
    (finalWrites st.generated_articles = [] ↔ st.processed = 0) ∧
    (st.processed ≠ 0 →
      finalWrites st.generated_articles = ["articles.json", "index.html"]) ∧
    (manifestMeta st.generated_articles).total_articles = st.processed ∧
    (manifestMeta st.generated_articles).with_images =
      (st.generated_articles.filter (fun a => a.thumbnail ≠ "")).length := by
  subst hst
  have hinv := runLoop_artifacts env urls (initRunState pdb pfiles) rfl
  have hta : (manifestMeta (runLoop env urls
      (initRunState pdb pfiles)).generated_articles).total_articles =
      (runLoop env urls (initRunState pdb pfiles)).generated_articles.length :=
    rfl
  unfold finalWrites
  by_cases he :
      (runLoop env urls (initRunState pdb pfiles)).generated_articles.isEmpty = true
  · rw [if_pos he]
    have hlen : (runLoop env urls
        (initRunState pdb pfiles)).generated_articles.length = 0 := by
      rw [List.isEmpty_iff] at he
      rw [he]
      rfl
    refine ⟨iff_of_true rfl (by omega), fun hp => absurd (by omega) hp,
      by omega, rfl⟩
  · rw [if_neg he]
    have hlen : (runLoop env urls
        (initRunState pdb pfiles)).generated_articles.length ≠ 0 := by
      intro h0
      rw [List.length_eq_zero] at h0
      rw [h0] at he
      exact he rfl
    refine ⟨iff_of_false (by simp) (by omega), fun _ => rfl, by omega, rfl⟩

/-- Witness for **C10**: a run over an empty URL list generates nothing
and writes neither aggregate file. -/
theorem final_manifest_spec_witness :
    finalWrites (runLoop
      (⟨false, false, false, fun _ => none, fun _ _ => none, fun _ _ => none,
        fun _ => none⟩ : RunEnv) [] (initRunState none [])).generated_articles
      = [] := by
  exact (final_manifest_spec
    (⟨false, false, false, fun _ => none, fun _ _ => none, fun _ _ => none,
      fun _ => none⟩ : RunEnv) [] none [] _ rfl).1.mpr rfl

/-- **C1** fails on the code: `main` never calls `mark_article_processed`,
so a successfully processed URL leaves no ledger row, and a second run
with the persisted ledger and output directory re-processes the same URL —
`skipped` stays 0 and a second output file is written — contradicting the
claimed cross-run idempotency (and the run's own
`Database updated with N processed URLs` message). -/
theorem ledger_never_written_on_success :
    (runLoop demoEnv [demoUrl] (initRunState none [])).processed = 1 ∧
    (runLoop demoEnv [demoUrl] (initRunState none [])).files = ["T2.html"] ∧
    (runLoop demoEnv [demoUrl] (initRunState none [])).db.rows = [] ∧
    (runLoop demoEnv [demoUrl] (initRunState
      (some (runLoop demoEnv [demoUrl] (initRunState none [])).db)
      (runLoop demoEnv [demoUrl] (initRunState none [])).files)).skipped = 0 ∧
    (runLoop demoEnv [demoUrl] (initRunState
      (some (runLoop demoEnv [demoUrl] (initRunState none [])).db)
      (runLoop demoEnv [demoUrl] (initRunState none [])).files)).processed = 1 ∧
    (runLoop demoEnv [demoUrl] (initRunState
      (some (runLoop demoEnv [demoUrl] (initRunState none [])).db)
      (runLoop demoEnv [demoUrl] (initRunState none [])).files)).files =
      ["T2.html", "T2-1.html"] := by
  decide

end Q
